import Mathlib

/-!
Shallow embedding of the `sg-upload-service` core (upload pipeline,
validator, builder, storage backends) and proofs of the specification
claims.  Numbers are modelled as `Int` (TypeScript `number` on the
integer inputs the service handles), byte buffers as `List Nat`,
JavaScript `Error` values by their message `String`, and the external
collaborators (ClamAV client, sharp codec, storage SDKs) as explicit
oracle functions threaded through the pipeline.
-/

namespace SgUpload

/-- JavaScript truthiness of an optional number (`undefined` and `0` are
falsy; `NaN` is out of the integer model). -/
def jsTruthyNum : Option Int → Bool
  | none => false
  | some n => n != 0

/-- JS `String.prototype.startsWith`. -/
def jsStartsWith (s pre : String) : Bool :=
  List.isPrefixOf pre.data s.data

/-- Splitting a character list at `'.'` separators, as JS
`String.prototype.split(".")` does (keeps empty segments, never returns
an empty list). -/
def splitDotAux : List Char → List Char → List (List Char)
  | [], acc => [acc.reverse]
  | c :: rest, acc =>
    if c = '.' then acc.reverse :: splitDotAux rest [] else splitDotAux rest (c :: acc)

/-- JS `name.split(".").pop()`: the segment after the last `'.'`.
A name with no `'.'` yields the whole name (JS `split` returns the
one-element array `[name]` there, and `pop` takes it). -/
def jsExtension (name : String) : String :=
  ⟨(splitDotAux name.data []).getLastD []⟩

/-- `FileTypeConfig` from `upload-config.interface.ts`. -/
structure FileTypeConfig where
  maxSize : Int
  allowedMimeTypes : List String
  allowedExtensions : List String
deriving DecidableEq, Repr

/-- `LocalStorageConfig`. -/
structure LocalStorageConfig where
  destination : String
deriving DecidableEq, Repr

/-- `S3StorageConfig`. -/
structure S3StorageConfig where
  accessKeyId : String
  secretAccessKey : String
  region : String
  bucket : String
  endpoint : Option String
deriving DecidableEq, Repr

/-- `AzureStorageConfig`. -/
structure AzureStorageConfig where
  connectionString : String
  container : String
deriving DecidableEq, Repr

/-- `GCPStorageConfig`. -/
structure GCPStorageConfig where
  projectId : String
  keyFilename : String
  bucket : String
deriving DecidableEq, Repr

/-- `StorageConfig`: the tagged union `{type, config}`.  Via the builder
the tag and the payload always agree, so it is embedded as an inductive
(the `local` tag is spelled `localStorage`, `local` being reserved in
Lean). -/
inductive StorageConfig
  | localStorage (config : LocalStorageConfig)
  | s3 (config : S3StorageConfig)
  | azure (config : AzureStorageConfig)
  | gcp (config : GCPStorageConfig)
deriving DecidableEq, Repr

/-- The `clamav` record inside `virus.config`. -/
structure ClamavConfig where
  host : String
  port : Int
deriving DecidableEq, Repr

/-- The `virus` block of `UploadConfig` (`config?` is optional, `clamav`
inside it is not). -/
structure VirusConfig where
  enabled : Bool
  config : Option ClamavConfig
deriving DecidableEq, Repr

/-- The `compression.config` block (all fields optional). -/
structure CompressionParams where
  quality : Option Int
  maxWidth : Option Int
  maxHeight : Option Int
deriving DecidableEq, Repr

/-- The `compression` block of `UploadConfig`. -/
structure CompressionConfig where
  enabled : Bool
  config : Option CompressionParams
deriving DecidableEq, Repr

/-- The `chunks` block of `UploadConfig` (declared, unused by the
pipeline). -/
structure ChunksConfig where
  enabled : Bool
  size : Option Int
deriving DecidableEq, Repr

/-- `UploadConfig`.  The `fileTypes` string-keyed object is embedded as
an association list probed with `List.lookup`; inserts prepend, so the
first hit is the most recent write, matching JS object assignment. -/
structure UploadConfig where
  storage : StorageConfig
  fileTypes : List (String × FileTypeConfig)
  defaultMaxSize : Int
  virus : Option VirusConfig
  compression : Option CompressionConfig
  chunks : Option ChunksConfig
deriving DecidableEq, Repr

/-- The incoming `Express.Multer.File` fields the service reads. -/
structure MulterFile where
  buffer : List Nat
  originalname : String
  mimetype : String
  size : Int
deriving DecidableEq, Repr

/-- Verdict of `clamscan.scanStream`. -/
structure ScanResult where
  isInfected : Bool
  viruses : List String
deriving DecidableEq, Repr

/-- The sharp pipeline assembled by `compressImage` before
`toBuffer()`: the input bytes, the `resize` arguments if `resize` was
called, and the `jpeg` quality if `jpeg` was called. -/
structure SharpPipeline where
  input : List Nat
  resize : Option (Option Int × Option Int)
  jpegQuality : Option Int
deriving DecidableEq, Repr

/-- One write issued to a storage backend SDK. -/
inductive StoreEvent
  | localWrite (path : String) (bytes : List Nat)
  | s3Put (bucket : String) (key : String) (bytes : List Nat)
      (contentType : String) (endpoint : Option String)
  | azureUpload (container : String) (blobName : String) (bytes : List Nat)
      (contentType : String)
  | gcpSave (bucket : String) (name : String) (bytes : List Nat)
      (contentType : String)
deriving DecidableEq, Repr

/-- One observable interaction with the external world during an
upload: bytes streamed to the virus scanner, or a backend write. -/
inductive TraceEvent
  | scanned (bytes : List Nat)
  | stored (ev : StoreEvent)
deriving DecidableEq, Repr

/-- The bytes a backend write carries. -/
def StoreEvent.bytes : StoreEvent → List Nat
  | .localWrite _ b => b
  | .s3Put _ _ b _ _ => b
  | .azureUpload _ _ b _ => b
  | .gcpSave _ _ b _ => b

/-- The bytes a trace event carries. -/
def TraceEvent.bytes : TraceEvent → List Nat
  | .scanned b => b
  | .stored ev => ev.bytes

/-- The external collaborators, as oracles: the ClamAV scan verdict (or
a transport error), the sharp `toBuffer()` result for an assembled
pipeline, the acknowledgement (or rejection) of each backend write, and
the URL the Azure block-blob client reports for
(connectionString, container, blobName). -/
structure ExternalWorld where
  scanStream : List Nat → Except String ScanResult
  sharpToBuffer : SharpPipeline → Except String (List Nat)
  backend : StoreEvent → Except String Unit
  azureBlobUrl : String → String → String → String

/-- The `fileTypeConfig` resolution at the top of `validateFile`:
`this.config.fileTypes[file.mimetype] ||
 this.config.fileTypes[file.originalname.split(".").pop()]`
(`FileTypeConfig` objects are always truthy, so `||` is first-hit). -/
def resolveFileTypeConfig (config : UploadConfig) (file : MulterFile) :
    Option FileTypeConfig :=
  match config.fileTypes.lookup file.mimetype with
  | some c => some c
  | none => config.fileTypes.lookup (jsExtension file.originalname)

/-- `UploadService.validateFile`.  Error messages follow the source
templates; in the size message `maxSize / 1024 / 1024` is integer
division here (the source's JS division only differs on sizes that are
not byte-exact in MiB, which no claim exercises). -/
def validateFile (config : UploadConfig) (file : MulterFile) : Except String Unit :=
  match resolveFileTypeConfig config file with
  | none => .error ("Unsupported file type: " ++ file.mimetype)
  | some ftc =>
    if file.size > ftc.maxSize then
      .error ("File size exceeds the maximum allowed size of "
        ++ toString (ftc.maxSize / 1024 / 1024) ++ " MB")
    else if !ftc.allowedMimeTypes.contains file.mimetype then
      .error ("Invalid file MIME type: " ++ file.mimetype)
    else if !ftc.allowedExtensions.contains (jsExtension file.originalname) then
      .error ("Invalid file extension: ." ++ jsExtension file.originalname)
    else .ok ()

/-- The body of the `try` block in `scanForVirus`: awaits the scan
verdict and, on `isInfected`, throws
`File is infected. Viruses found: ${viruses.join(", ")}`. -/
def scanVerdict (w : ExternalWorld) (file : MulterFile) : Except String Unit := do
  let r ← w.scanStream file.buffer
  if r.isInfected then
    throw ("File is infected. Viruses found: " ++ String.intercalate ", " r.viruses)
  else
    pure ()

/-- `UploadService.scanForVirus`.  Returns the outcome together with
the trace of scanner interactions (`scanStream` is invoked exactly
when the stage is enabled and a `clamav` block is present).  Note the
source's `catch` wraps every error thrown inside the `try` — the
transport errors of `scanStream` and its own infected-file throw alike
— as `Virus scan failed: ${error.message}`. -/
def scanForVirus (config : UploadConfig) (w : ExternalWorld) (file : MulterFile) :
    Except String Unit × List TraceEvent :=
  match config.virus with
  | none => (.ok (), [])
  | some v =>
    if !v.enabled then (.ok (), [])
    else
      match v.config with
      | none => (.error "ClamAV configuration is missing.", [])
      | some _clamav =>
        match scanVerdict w file with
        | .ok _ => (.ok (), [.scanned file.buffer])
        | .error e => (.error ("Virus scan failed: " ++ e), [.scanned file.buffer])

/-- The sharp pipeline `compressImage` assembles from the (possibly
absent) compression parameters: `resize(maxWidth, maxHeight,
{fit: "inside"})` if `maxWidth || maxHeight` is truthy, then
`jpeg({quality})` if `quality` is truthy. -/
def buildSharpPipeline (params : CompressionParams) (buffer : List Nat) : SharpPipeline :=
  let p0 : SharpPipeline := { input := buffer, resize := none, jpegQuality := none }
  let p1 :=
    if jsTruthyNum params.maxWidth || jsTruthyNum params.maxHeight then
      { p0 with resize := some (params.maxWidth, params.maxHeight) }
    else p0
  if jsTruthyNum params.quality then { p1 with jpegQuality := params.quality } else p1

/-- `UploadService.compressImage`.  Returns the input buffer unchanged
when compression is disabled or absent; otherwise runs the assembled
sharp pipeline, wrapping a codec failure as
`Image compression failed: ${error.message}`. -/
def compressImage (config : UploadConfig) (w : ExternalWorld) (file : MulterFile) :
    Except String (List Nat) :=
  match config.compression with
  | none => .ok file.buffer
  | some c =>
    if !c.enabled then .ok file.buffer
    else
      let params := c.config.getD { quality := none, maxWidth := none, maxHeight := none }
      match w.sharpToBuffer (buildSharpPipeline params file.buffer) with
      | .ok buf => .ok buf
      | .error e => .error ("Image compression failed: " ++ e)

/-- `join(localConfig.destination, filename)` (the simple
directory/filename case of Node's `path.join`; no claim exercises its
normalisation). -/
def pathJoin (dir name : String) : String := dir ++ "/" ++ name

/-- `UploadService.storeFileLocally`. -/
def storeFileLocally (c : LocalStorageConfig) (w : ExternalWorld) (file : MulterFile)
    (filename : String) : Except String String × List TraceEvent :=
  let filePath := pathJoin c.destination filename
  let ev := StoreEvent.localWrite filePath file.buffer
  (match w.backend ev with
   | .ok _ => .ok filePath
   | .error e => .error e, [.stored ev])

/-- `UploadService.storeFileToS3`: a per-call client on
region/credentials/optional endpoint, a `PutObjectCommand` of the bytes
under the key with the content type, then the deterministic
virtual-hosted-style URL (never derived from the endpoint). -/
def storeFileToS3 (c : S3StorageConfig) (w : ExternalWorld) (file : MulterFile)
    (filename : String) : Except String String × List TraceEvent :=
  let ev := StoreEvent.s3Put c.bucket filename file.buffer file.mimetype c.endpoint
  (match w.backend ev with
   | .ok _ => .ok ("https://" ++ c.bucket ++ ".s3." ++ c.region
       ++ ".amazonaws.com/" ++ filename)
   | .error e => .error e, [.stored ev])

/-- `UploadService.storeFileToAzure`: uploads the bytes with the
content-type header and returns the block-blob client's URL. -/
def storeFileToAzure (c : AzureStorageConfig) (w : ExternalWorld) (file : MulterFile)
    (filename : String) : Except String String × List TraceEvent :=
  let ev := StoreEvent.azureUpload c.container filename file.buffer file.mimetype
  (match w.backend ev with
   | .ok _ => .ok (w.azureBlobUrl c.connectionString c.container filename)
   | .error e => .error e, [.stored ev])

/-- `UploadService.storeFileToGCP`: saves the bytes with content-type
metadata and returns the deterministic public URL. -/
def storeFileToGCP (c : GCPStorageConfig) (w : ExternalWorld) (file : MulterFile)
    (filename : String) : Except String String × List TraceEvent :=
  let ev := StoreEvent.gcpSave c.bucket filename file.buffer file.mimetype
  (match w.backend ev with
   | .ok _ => .ok ("https://storage.googleapis.com/" ++ c.bucket ++ "/" ++ filename)
   | .error e => .error e, [.stored ev])

/-- `UploadService.storeFile`: dispatch on `storage.type`. -/
def storeFile (config : UploadConfig) (w : ExternalWorld) (file : MulterFile)
    (filename : String) : Except String String × List TraceEvent :=
  match config.storage with
  | .localStorage c => storeFileLocally c w file filename
  | .s3 c => storeFileToS3 c w file filename
  | .azure c => storeFileToAzure c w file filename
  | .gcp c => storeFileToGCP c w file filename

/-- The compression step of `uploadFile`:
`if (file.mimetype.startsWith("image/")) file.buffer = await
this.compressImage(file)`. -/
def applyCompressionStage (config : UploadConfig) (w : ExternalWorld)
    (file : MulterFile) : Except String MulterFile :=
  if jsStartsWith file.mimetype "image/" then
    match compressImage config w file with
    | .ok buf => .ok { file with buffer := buf }
    | .error e => .error e
  else .ok file

/-- The virus step of `uploadFile`:
`if (this.config.virus?.enabled) await this.scanForVirus(file)`. -/
def virusStage (config : UploadConfig) (w : ExternalWorld) (file : MulterFile) :
    Except String Unit × List TraceEvent :=
  match config.virus with
  | some v => if v.enabled then scanForVirus config w file else (.ok (), [])
  | none => (.ok (), [])

/-- `UploadService.uploadFile`: validate, compress images, scan, store
under `file.originalname`, return the locator.  The second component is
the trace of external interactions that actually occurred. -/
def uploadFile (config : UploadConfig) (w : ExternalWorld) (file : MulterFile) :
    Except String String × List TraceEvent :=
  match validateFile config file with
  | .error e => (.error e, [])
  | .ok _ =>
    match applyCompressionStage config w file with
    | .error e => (.error e, [])
    | .ok f2 =>
      match virusStage config w f2 with
      | (.error e, tr) => (.error e, tr)
      | (.ok _, tr) =>
        let (res, tr2) := storeFile config w f2 f2.originalname
        (res, tr ++ tr2)

/-- The builder's internal `Partial<UploadConfig>` (every field may
still be `undefined`). -/
structure BuilderConfig where
  storage : Option StorageConfig := none
  fileTypes : Option (List (String × FileTypeConfig)) := none
  defaultMaxSize : Option Int := none
  virus : Option VirusConfig := none
  compression : Option CompressionConfig := none
  chunks : Option ChunksConfig := none
deriving DecidableEq, Repr

/-- The `compression` value `enableCompression(quality, maxWidth,
maxHeight)` stores. -/
def enableCompressionValue (quality maxWidth maxHeight : Option Int) :
    Option CompressionConfig :=
  some { enabled := true, config := some { quality := quality, maxWidth := maxWidth, maxHeight := maxHeight } }

/-- One call on `UploadConfigBuilder`. -/
inductive BuilderOp
  | useLocalStorage (destination : String)
  | useS3Storage (accessKeyId secretAccessKey region bucket : String)
      (endpoint : Option String)
  | useAzureStorage (connectionString container : String)
  | useGCPStorage (projectId keyFilename bucket : String)
  | setFileType (name : String) (config : FileTypeConfig)
  | setDefaultMaxSize (size : Int)
  | enableVirusScanning (host : String) (port : Int)
  | enableCompression (quality maxWidth maxHeight : Option Int)
  | enableChunkedUploads (size : Option Int)
deriving DecidableEq, Repr

/-- The mutation each builder setter performs on `this.config`
(`setFileType` creates the `fileTypes` object if needed and overwrites
the key: here, prepend plus first-hit `lookup`). -/
def applyOp (s : BuilderConfig) : BuilderOp → BuilderConfig
  | .useLocalStorage d =>
      { s with storage := some (.localStorage { destination := d }) }
  | .useS3Storage a k r b e =>
      { s with storage := some (.s3 { accessKeyId := a, secretAccessKey := k, region := r, bucket := b, endpoint := e }) }
  | .useAzureStorage cs c =>
      { s with storage := some (.azure { connectionString := cs, container := c }) }
  | .useGCPStorage p k b =>
      { s with storage := some (.gcp { projectId := p, keyFilename := k, bucket := b }) }
  | .setFileType n c =>
      { s with fileTypes := some ((n, c) :: s.fileTypes.getD []) }
  | .setDefaultMaxSize d => { s with defaultMaxSize := some d }
  | .enableVirusScanning h p =>
      { s with virus := some { enabled := true, config := some { host := h, port := p } } }
  | .enableCompression q mw mh =>
      { s with compression := enableCompressionValue q mw mh }
  | .enableChunkedUploads sz =>
      { s with chunks := some { enabled := true, size := sz } }

/-- The builder state after a sequence of setter calls on a fresh
`UploadConfigBuilder`. -/
def runBuilder (ops : List BuilderOp) : BuilderConfig :=
  ops.foldl applyOp {}

/-- The `this.config as UploadConfig` view of a builder state: what a
holder of the object `build()` returned sees at any later time, since
`build()` returns `this.config` itself (by reference, no copy, no
freeze).  `defaultMaxSize` reads as `0` while still unset; `build()`
always sets it before returning. -/
def viewConfig (s : BuilderConfig) : Option UploadConfig :=
  match s.storage, s.fileTypes with
  | some st, some fts =>
    some { storage := st, fileTypes := fts, defaultMaxSize := s.defaultMaxSize.getD 0,
           virus := s.virus, compression := s.compression, chunks := s.chunks }
  | _, _ => none

/-- `UploadConfigBuilder.build`: requires `storage` and `fileTypes`,
defaults a falsy `defaultMaxSize` to 5 MiB by mutating `this.config`,
and returns `this.config` cast to `UploadConfig`.  The result pairs the
mutated builder state with the returned (aliasing) config value. -/
def build (s : BuilderConfig) : Except String (BuilderConfig × UploadConfig) :=
  match s.storage with
  | none => .error "Storage configuration is required"
  | some st =>
    match s.fileTypes with
    | none => .error "At least one file type configuration is required"
    | some fts =>
      let s2 := if jsTruthyNum s.defaultMaxSize then s
                else { s with defaultMaxSize := some (5 * 1024 * 1024) }
      .ok (s2, { storage := st, fileTypes := fts,
                 defaultMaxSize := s2.defaultMaxSize.getD 0,
                 virus := s2.virus, compression := s2.compression, chunks := s2.chunks })

/-- The last argument `setDefaultMaxSize` was called with in a builder
call sequence, if any. -/
def lastSetDefaultMaxSize (ops : List BuilderOp) : Option Int :=
  ops.foldl
    (fun acc op => match op with
      | BuilderOp.setDefaultMaxSize d => some d
      | _ => acc)
    none

/-- Whether the compression feature is disabled or absent in a config. -/
def compressionDisabled (config : UploadConfig) : Bool :=
  match config.compression with
  | none => true
  | some c => !c.enabled

/-- Shape invariant of the builder's `virus` block: absent, or enabled
with a `clamav` block (the only value `enableVirusScanning` writes). -/
def goodVirus (v : Option VirusConfig) : Prop :=
  v = none ∨ ∃ cc, v = some { enabled := true, config := some cc }

/-! Concrete instances used to exercise the claims. -/

/-- A PDF policy entry. -/
def pdfType : FileTypeConfig :=
  { maxSize := 10485760, allowedMimeTypes := ["application/pdf"], allowedExtensions := ["pdf"] }

/-- C1: a policy with virus scanning enabled (local storage, PDFs). -/
def c1config : UploadConfig :=
  { storage := .localStorage { destination := "/var/uploads" },
    fileTypes := [("application/pdf", pdfType)],
    defaultMaxSize := 5242880,
    virus := some { enabled := true, config := some { host := "localhost", port := 3310 } },
    compression := none, chunks := none }

/-- C1: a valid PDF upload. -/
def c1file : MulterFile :=
  { buffer := [0, 1, 2], originalname := "report.pdf", mimetype := "application/pdf", size := 3 }

/-- C1: a world whose scan engine reports the file infected. -/
def c1world : ExternalWorld :=
  { scanStream := fun _ => .ok { isInfected := true, viruses := ["Eicar-Test-Signature"] },
    sharpToBuffer := fun p => .ok p.input,
    backend := fun _ => .ok (),
    azureBlobUrl := fun _ _ b => b }

/-- C2: a strict PNG-only entry keyed by the PDF MIME type, so that one
file trips size, MIME and extension checks at once. -/
def c2ftc : FileTypeConfig :=
  { maxSize := 1048576, allowedMimeTypes := ["image/png"], allowedExtensions := ["png"] }

/-- C2: policy holding only the crafted entry. -/
def c2config : UploadConfig :=
  { storage := .localStorage { destination := "/var/uploads" },
    fileTypes := [("application/pdf", c2ftc)],
    defaultMaxSize := 5242880, virus := none, compression := none, chunks := none }

/-- C2: a file violating size, MIME and extension simultaneously. -/
def c2file : MulterFile :=
  { buffer := [], originalname := "doc.exe", mimetype := "application/pdf", size := 2097152 }

/-- C3: a PNG policy entry. -/
def c3ftc : FileTypeConfig :=
  { maxSize := 1048576, allowedMimeTypes := ["image/png"], allowedExtensions := ["png"] }

/-- C3: policy keyed by the PNG MIME type. -/
def c3config : UploadConfig :=
  { storage := .localStorage { destination := "/var/uploads" },
    fileTypes := [("image/png", c3ftc)],
    defaultMaxSize := 5242880, virus := none, compression := none, chunks := none }

/-- C3: a file whose name `png` has no dot at all. -/
def c3file : MulterFile :=
  { buffer := [7], originalname := "png", mimetype := "image/png", size := 10 }

/-- C4/C5: a generic policy entry for builder runs. -/
def c4ftc : FileTypeConfig :=
  { maxSize := 1048576, allowedMimeTypes := ["image/png"], allowedExtensions := ["png"] }

/-- C4: a builder call sequence with the two required concerns. -/
def c4ops : List BuilderOp :=
  [.useLocalStorage "/tmp/uploads", .setFileType "image/png" c4ftc]

/-- C4: the builder state right after `build()` on `c4ops`. -/
def c4s2 : BuilderConfig :=
  { storage := some (.localStorage { destination := "/tmp/uploads" }),
    fileTypes := some [("image/png", c4ftc)],
    defaultMaxSize := some 5242880,
    virus := none, compression := none, chunks := none }

/-- C4: the config object `build()` returned for `c4ops`. -/
def c4cfg : UploadConfig :=
  { storage := .localStorage { destination := "/tmp/uploads" },
    fileTypes := [("image/png", c4ftc)],
    defaultMaxSize := 5242880, virus := none, compression := none, chunks := none }

/-- C4 witness: a pre-build builder state. -/
def c4ws : BuilderConfig :=
  { storage := some (.localStorage { destination := "/srv/files" }),
    fileTypes := some [("image/png", c4ftc)],
    defaultMaxSize := none, virus := none, compression := none, chunks := none }

/-- C4 witness: the builder state right after `build()` on `c4ws`. -/
def c4ws2 : BuilderConfig :=
  { c4ws with defaultMaxSize := some 5242880 }

/-- C4 witness: the config object `build()` returned for `c4ws`. -/
def c4wcfg : UploadConfig :=
  { storage := .localStorage { destination := "/srv/files" },
    fileTypes := [("image/png", c4ftc)],
    defaultMaxSize := 5242880, virus := none, compression := none, chunks := none }

/-- C5: builder calls whose last `setDefaultMaxSize` passes `0`. -/
def c5ops : List BuilderOp :=
  [.useLocalStorage "/tmp/uploads", .setFileType "image/png" c4ftc, .setDefaultMaxSize 0]

/-- C5: the post-build builder state for `c5ops`. -/
def c5s2 : BuilderConfig :=
  { storage := some (.localStorage { destination := "/tmp/uploads" }),
    fileTypes := some [("image/png", c4ftc)],
    defaultMaxSize := some 5242880,
    virus := none, compression := none, chunks := none }

/-- C5: the config `build()` returns for `c5ops`. -/
def c5cfg : UploadConfig :=
  { storage := .localStorage { destination := "/tmp/uploads" },
    fileTypes := [("image/png", c4ftc)],
    defaultMaxSize := 5242880, virus := none, compression := none, chunks := none }

/-- C5 witness: builder calls setting a truthy default size. -/
def c5wops : List BuilderOp :=
  [.useLocalStorage "/tmp/uploads", .setFileType "image/png" c4ftc, .setDefaultMaxSize 7]

/-- C5 witness: the post-build builder state for `c5wops`. -/
def c5ws2 : BuilderConfig :=
  { storage := some (.localStorage { destination := "/tmp/uploads" }),
    fileTypes := some [("image/png", c4ftc)],
    defaultMaxSize := some 7,
    virus := none, compression := none, chunks := none }

/-- C5 witness: the config `build()` returns for `c5wops`. -/
def c5wcfg : UploadConfig :=
  { storage := .localStorage { destination := "/tmp/uploads" },
    fileTypes := [("image/png", c4ftc)],
    defaultMaxSize := 7, virus := none, compression := none, chunks := none }

/-- C6: a policy that knows only PDFs but has a custom default size. -/
def c6config : UploadConfig :=
  { storage := .localStorage { destination := "/var/uploads" },
    fileTypes := [("application/pdf", pdfType)],
    defaultMaxSize := 123456789, virus := none, compression := none, chunks := none }

/-- C6: a text file matching no policy entry by MIME or extension. -/
def c6file : MulterFile :=
  { buffer := [1], originalname := "notes.txt", mimetype := "text/plain", size := 1 }

/-- C6: a fully cooperative world. -/
def c6world : ExternalWorld :=
  { scanStream := fun _ => .ok { isInfected := false, viruses := [] },
    sharpToBuffer := fun p => .ok p.input,
    backend := fun _ => .ok (),
    azureBlobUrl := fun _ _ b => b }

/-- C7: a policy with compression enabled but for a non-image upload. -/
def c7config : UploadConfig :=
  { storage := .localStorage { destination := "/var/uploads" },
    fileTypes := [("application/pdf", pdfType)],
    defaultMaxSize := 5242880, virus := none,
    compression := some { enabled := true, config := some { quality := some 80, maxWidth := some 100, maxHeight := none } },
    chunks := none }

/-- C7: a valid non-image upload. -/
def c7file : MulterFile :=
  { buffer := [9, 9], originalname := "paper.pdf", mimetype := "application/pdf", size := 2 }

/-- C7: a world whose codec would visibly change any buffer it is
handed (so a no-op proves the codec was never consulted). -/
def c7world : ExternalWorld :=
  { scanStream := fun _ => .ok { isInfected := false, viruses := [] },
    sharpToBuffer := fun _ => .ok [42],
    backend := fun _ => .ok (),
    azureBlobUrl := fun _ _ b => b }

/-- C8: an S3 storage block with a custom (non-AWS) endpoint. -/
def c8sc : S3StorageConfig :=
  { accessKeyId := "AKIA", secretAccessKey := "SECRET", region := "us-east-1",
    bucket := "bkt", endpoint := some "https://minio.local:9000" }

/-- C8: an S3 policy for PDFs. -/
def c8config : UploadConfig :=
  { storage := .s3 c8sc,
    fileTypes := [("application/pdf", pdfType)],
    defaultMaxSize := 5242880, virus := none, compression := none, chunks := none }

/-- C8: a valid PDF upload. -/
def c8file : MulterFile :=
  { buffer := [3, 4], originalname := "a.pdf", mimetype := "application/pdf", size := 2 }

/-- C8: a fully cooperative world. -/
def c8world : ExternalWorld :=
  { scanStream := fun _ => .ok { isInfected := false, viruses := [] },
    sharpToBuffer := fun p => .ok p.input,
    backend := fun _ => .ok (),
    azureBlobUrl := fun _ _ b => b }

/-- C9: builder calls that enable virus scanning. -/
def c9ops : List BuilderOp :=
  [.useLocalStorage "/tmp/uploads", .setFileType "image/png" c4ftc,
   .enableVirusScanning "clamav.internal" 3310]

/-- C9: the post-build builder state for `c9ops`. -/
def c9s2 : BuilderConfig :=
  { storage := some (.localStorage { destination := "/tmp/uploads" }),
    fileTypes := some [("image/png", c4ftc)],
    defaultMaxSize := some 5242880,
    virus := some { enabled := true, config := some { host := "clamav.internal", port := 3310 } },
    compression := none, chunks := none }

/-- C9: the config `build()` returns for `c9ops`. -/
def c9cfg : UploadConfig :=
  { storage := .localStorage { destination := "/tmp/uploads" },
    fileTypes := [("image/png", c4ftc)],
    defaultMaxSize := 5242880,
    virus := some { enabled := true, config := some { host := "clamav.internal", port := 3310 } },
    compression := none, chunks := none }

/-- C9: a world whose scanner errors at transport level. -/
def c9world : ExternalWorld :=
  { scanStream := fun _ => .error "connect ECONNREFUSED",
    sharpToBuffer := fun p => .ok p.input,
    backend := fun _ => .ok (),
    azureBlobUrl := fun _ _ b => b }

/-- C9: an arbitrary file handed to the scan stage. -/
def c9file : MulterFile :=
  { buffer := [5], originalname := "x.png", mimetype := "image/png", size := 1 }

/-! Helper lemmas. -/

/-- A message wrapped by the scan stage's catch never equals the
missing-configuration message. -/
theorem wrap_ne_missing (x : String) :
    "Virus scan failed: " ++ x ≠ "ClamAV configuration is missing." := by
  intro h
  obtain ⟨xs⟩ := x
  have h2 : "Virus scan failed: ".data ++ xs = "ClamAV configuration is missing.".data :=
    congrArg String.data h
  have e1 : "Virus scan failed: ".data = 'V' :: "irus scan failed: ".data := rfl
  have e2 : "ClamAV configuration is missing.".data
      = 'C' :: "lamAV configuration is missing.".data := rfl
  rw [e1, e2, List.cons_append] at h2
  injection h2 with hh _
  exact absurd hh (by decide)

/-- Splitting a dot-free character list yields a single segment. -/
theorem splitDotAux_no_dot (l acc : List Char) (h : ('.') ∉ l) :
    splitDotAux l acc = [acc.reverse ++ l] := by
  induction l generalizing acc with
  | nil => simp [splitDotAux]
  | cons c rest ih =>
    have hc : ¬ c = '.' := by
      intro e
      exact h (e ▸ List.mem_cons_self c rest)
    have h2 : ('.') ∉ rest := fun hm => h (List.mem_cons_of_mem _ hm)
    simp [splitDotAux, hc, ih _ h2, List.append_assoc]

/-- On a dot-free name, `split(".").pop()` returns the whole name. -/
theorem jsExtension_no_dot (name : String) (h : ('.') ∉ name.data) :
    jsExtension name = name := by
  unfold jsExtension
  rw [splitDotAux_no_dot _ _ h]
  rfl

/-! Theorems settling the claims. -/

/-- C1: with virus scanning enabled and the engine reporting
`isInfected = true` with one signature, `uploadFile` does NOT surface a
distinct infected-file error: the `catch` in `scanForVirus` wraps the
method's own infected-file throw, so the call fails with the
`ScanFailed`-shaped message `Virus scan failed: File is infected.
Viruses found: Eicar-Test-Signature`.  The trace shows the bytes were
streamed to the scanner and no storage write ever occurred. -/
theorem uploadFile_infected_scan_wrapped :
    uploadFile c1config c1world c1file =
      (.error "Virus scan failed: File is infected. Viruses found: Eicar-Test-Signature",
       [.scanned [0, 1, 2]]) := rfl

/-- C2: validation resolves the entry by probing the MIME key first and
the extension key only on a miss, then reports exactly the
first-in-order failure: unsupported type, then size, then MIME, then
extension. -/
theorem validateFile_order (config : UploadConfig) (file : MulterFile) :
    (config.fileTypes.lookup file.mimetype = none →
      resolveFileTypeConfig config file
        = config.fileTypes.lookup (jsExtension file.originalname)) ∧
    (∀ c, config.fileTypes.lookup file.mimetype = some c →
      resolveFileTypeConfig config file = some c) ∧
    (resolveFileTypeConfig config file = none →
      validateFile config file = .error ("Unsupported file type: " ++ file.mimetype)) ∧
    (∀ c, resolveFileTypeConfig config file = some c → file.size > c.maxSize →
      validateFile config file = .error ("File size exceeds the maximum allowed size of "
        ++ toString (c.maxSize / 1024 / 1024) ++ " MB")) ∧
    (∀ c, resolveFileTypeConfig config file = some c → ¬ file.size > c.maxSize →
      c.allowedMimeTypes.contains file.mimetype = false →
      validateFile config file = .error ("Invalid file MIME type: " ++ file.mimetype)) ∧
    (∀ c, resolveFileTypeConfig config file = some c → ¬ file.size > c.maxSize →
      c.allowedMimeTypes.contains file.mimetype = true →
      c.allowedExtensions.contains (jsExtension file.originalname) = false →
      validateFile config file
        = .error ("Invalid file extension: ." ++ jsExtension file.originalname)) := by
  refine ⟨?_, ?_, ?_, ?_, ?_, ?_⟩
  · intro h
    simp [resolveFileTypeConfig, h]
  · intro c h
    simp [resolveFileTypeConfig, h]
  · intro h
    simp [validateFile, h]
  · intro c h hsize
    simp [validateFile, h, hsize]
  · intro c h hsize hmime
    have hm : file.mimetype ∉ c.allowedMimeTypes := by simpa using hmime
    simp [validateFile, h, hsize, hm]
  · intro c h hsize hmime hext
    have hm : file.mimetype ∈ c.allowedMimeTypes := by simpa using hmime
    have he : jsExtension file.originalname ∉ c.allowedExtensions := by simpa using hext
    simp [validateFile, h, hsize, hm, he]

/-- C2 witness: a 2 MiB `doc.exe` posted as `application/pdf` against a
1 MiB PNG-only entry violates size, MIME and extension at once, and
only the size failure is reported. -/
theorem validateFile_order_witness :
    resolveFileTypeConfig c2config c2file = some c2ftc ∧
    c2file.size > c2ftc.maxSize ∧
    c2ftc.allowedMimeTypes.contains c2file.mimetype = false ∧
    c2ftc.allowedExtensions.contains (jsExtension c2file.originalname) = false ∧
    validateFile c2config c2file
      = .error "File size exceeds the maximum allowed size of 1 MB" :=
  ⟨rfl, by decide, by decide, by decide,
    (validateFile_order c2config c2file).2.2.2.1 c2ftc rfl (by decide)⟩

/-- C3 counterexample: the file named `png` (no dot) under a policy
allowing extension `png` passes validation outright — the extracted
"extension" is the whole name, not empty/undefined, so reaching the
extension check does not always fail. -/
theorem validateFile_no_dot_counterexample :
    ('.') ∉ c3file.originalname.data ∧
    jsExtension c3file.originalname = "png" ∧
    validateFile c3config c3file = .ok () :=
  ⟨by decide, rfl, rfl⟩

/-- C3 (amended): on a name with no `.`, `split(".").pop()` yields the
entire name, so when validation reaches the extension check it fails
with `InvalidExtension` exactly when the whole original name is not
among the allowed extensions. -/
theorem validateFile_no_dot_extension (config : UploadConfig) (file : MulterFile)
    (c : FileTypeConfig)
    (hdot : ('.') ∉ file.originalname.data)
    (hres : resolveFileTypeConfig config file = some c)
    (hsize : ¬ file.size > c.maxSize)
    (hmime : c.allowedMimeTypes.contains file.mimetype = true) :
    jsExtension file.originalname = file.originalname ∧
    (c.allowedExtensions.contains file.originalname = false →
      validateFile config file
        = .error ("Invalid file extension: ." ++ file.originalname)) ∧
    (c.allowedExtensions.contains file.originalname = true →
      validateFile config file = .ok ()) := by
  have hext := jsExtension_no_dot _ hdot
  have hm : file.mimetype ∈ c.allowedMimeTypes := by simpa using hmime
  refine ⟨hext, ?_, ?_⟩ <;> intro hx <;>
    first
    | (have hx2 : file.originalname ∉ c.allowedExtensions := by simpa using hx
       simp [validateFile, hres, hsize, hm, hext, hx2])
    | (have hx2 : file.originalname ∈ c.allowedExtensions := by simpa using hx
       simp [validateFile, hres, hsize, hm, hext, hx2])

/-- C3 witness: the amended statement at the concrete dot-free input. -/
theorem validateFile_no_dot_extension_witness :
    ('.') ∉ c3file.originalname.data ∧
    resolveFileTypeConfig c3config c3file = some c3ftc ∧
    c3ftc.allowedExtensions.contains c3file.originalname = true ∧
    validateFile c3config c3file = .ok () :=
  ⟨by decide, rfl, by decide,
    (validateFile_no_dot_extension c3config c3file c3ftc (by decide) rfl
      (by decide) (by decide)).2.2 (by decide)⟩

/-- C4 counterexample: after `build()` returns, one more
`setDefaultMaxSize(1)` on the same builder changes the
`defaultMaxSize` field of the very object `build()` returned (the
builder hands out `this.config` by reference). -/
theorem build_alias_counterexample :
    build (runBuilder c4ops) = .ok (c4s2, c4cfg) ∧
    viewConfig c4s2 = some c4cfg ∧
    viewConfig (applyOp c4s2 (.setDefaultMaxSize 1)) ≠ some c4cfg :=
  ⟨rfl, rfl, by decide⟩

/-- C4 (amended): `build()` returns the builder's internal config
object by reference, so the returned Policy Model agrees with the
builder state at build time and every later `setDefaultMaxSize(d)`
call is visible through the already-returned object as a changed
`defaultMaxSize` field; immutability holds only while no further
setter runs. -/
theorem build_alias_mutation (s s2 : BuilderConfig) (cfg : UploadConfig)
    (hb : build s = .ok (s2, cfg)) :
    viewConfig s2 = some cfg ∧
    ∀ d, viewConfig (applyOp s2 (.setDefaultMaxSize d))
      = some { cfg with defaultMaxSize := d } := by
  unfold build at hb
  cases hst : s.storage with
  | none => rw [hst] at hb; exact absurd hb (by simp)
  | some st =>
    rw [hst] at hb
    cases hft : s.fileTypes with
    | none => rw [hft] at hb; exact absurd hb (by simp)
    | some fts =>
      rw [hft] at hb
      simp only [Except.ok.injEq, Prod.mk.injEq] at hb
      obtain ⟨hs2, hcfg⟩ := hb
      constructor
      · rw [← hs2, ← hcfg]
        by_cases hd : jsTruthyNum s.defaultMaxSize = true
        · simp [viewConfig, hd, hst, hft]
        · simp only [Bool.not_eq_true] at hd
          simp [viewConfig, hd, hst, hft]
      · intro d
        rw [← hs2, ← hcfg]
        by_cases hd : jsTruthyNum s.defaultMaxSize = true
        · simp [viewConfig, applyOp, hd, hst, hft]
        · simp only [Bool.not_eq_true] at hd
          simp [viewConfig, applyOp, hd, hst, hft]

/-- C4 witness: the amended statement at a concrete builder state. -/
theorem build_alias_mutation_witness :
    build c4ws = .ok (c4ws2, c4wcfg) ∧
    viewConfig (applyOp c4ws2 (.setDefaultMaxSize 1))
      = some { c4wcfg with defaultMaxSize := 1 } :=
  ⟨rfl, (build_alias_mutation c4ws c4ws2 c4wcfg rfl).2 1⟩

/-- The `defaultMaxSize` slot of a builder state after a call sequence
is the argument of the last `setDefaultMaxSize` call, if any. -/
theorem foldl_applyOp_defaultMaxSize (ops : List BuilderOp) (s : BuilderConfig) :
    (ops.foldl applyOp s).defaultMaxSize
      = ops.foldl
          (fun acc op => match op with
            | BuilderOp.setDefaultMaxSize d => some d
            | _ => acc)
          s.defaultMaxSize := by
  induction ops generalizing s with
  | nil => rfl
  | cons op rest ih =>
    cases op <;> simp [List.foldl, applyOp, ih]

/-- C5 counterexample: `setDefaultMaxSize(0)` is followed by
`build()` yielding `defaultMaxSize = 5 MiB`, not `0` — the `!value`
defaulting treats the explicitly-set falsy `0` as unset. -/
theorem build_defaultMaxSize_counterexample :
    lastSetDefaultMaxSize c5ops = some 0 ∧
    build (runBuilder c5ops) = .ok (c5s2, c5cfg) ∧
    c5cfg.defaultMaxSize = 5242880 ∧
    c5cfg.defaultMaxSize ≠ 0 :=
  ⟨rfl, rfl, rfl, by decide⟩

/-- C5 (amended): `build()` yields `defaultMaxSize = 5 MiB` when
`setDefaultMaxSize` was never called or its last call passed the falsy
`0`; when the last call passed `s ≠ 0`, `build()` yields `s`. -/
theorem build_defaultMaxSize_behavior (ops : List BuilderOp)
    (s2 : BuilderConfig) (cfg : UploadConfig)
    (hb : build (runBuilder ops) = .ok (s2, cfg)) :
    ((lastSetDefaultMaxSize ops = none ∨ lastSetDefaultMaxSize ops = some 0) →
      cfg.defaultMaxSize = 5 * 1024 * 1024) ∧
    (∀ d, lastSetDefaultMaxSize ops = some d → d ≠ 0 → cfg.defaultMaxSize = d) := by
  have hlast : (runBuilder ops).defaultMaxSize = lastSetDefaultMaxSize ops := by
    unfold runBuilder lastSetDefaultMaxSize
    exact foldl_applyOp_defaultMaxSize ops {}
  unfold build at hb
  cases hst : (runBuilder ops).storage with
  | none => rw [hst] at hb; exact absurd hb (by simp)
  | some st =>
    rw [hst] at hb
    cases hft : (runBuilder ops).fileTypes with
    | none => rw [hft] at hb; exact absurd hb (by simp)
    | some fts =>
      rw [hft] at hb
      simp only [Except.ok.injEq, Prod.mk.injEq] at hb
      obtain ⟨_, hcfg⟩ := hb
      constructor
      · intro h0
        have hfalse : jsTruthyNum (runBuilder ops).defaultMaxSize = false := by
          rw [hlast]
          rcases h0 with h0 | h0 <;> rw [h0] <;> rfl
        rw [← hcfg]
        simp [hfalse]
      · intro d hd hdz
        have htrue : jsTruthyNum (runBuilder ops).defaultMaxSize = true := by
          rw [hlast, hd]
          simpa [jsTruthyNum] using hdz
        rw [← hcfg]
        simp only [htrue, if_true]
        simp [hlast, hd]

/-- C5 witness: the amended statement at a concrete call sequence whose
last `setDefaultMaxSize` passes the truthy `7`. -/
theorem build_defaultMaxSize_behavior_witness :
    lastSetDefaultMaxSize c5wops = some 7 ∧
    build (runBuilder c5wops) = .ok (c5ws2, c5wcfg) ∧
    c5wcfg.defaultMaxSize = 7 :=
  ⟨rfl, rfl,
    (build_defaultMaxSize_behavior c5wops c5ws2 c5wcfg rfl).2 7 rfl (by decide)⟩

/-- C6: when neither the MIME type nor the extension keys an entry of
`fileTypes`, `uploadFile` fails with the unsupported-type error before
any external interaction, whatever the file's size; and the outcome is
the same for every value of `defaultMaxSize` and every world — the
fallback size bound is never consulted. -/
theorem uploadFile_unsupported (config : UploadConfig) (w : ExternalWorld)
    (file : MulterFile)
    (hmime : config.fileTypes.lookup file.mimetype = none)
    (hext : config.fileTypes.lookup (jsExtension file.originalname) = none) :
    uploadFile config w file
      = (.error ("Unsupported file type: " ++ file.mimetype), []) ∧
    ∀ d w2, uploadFile { config with defaultMaxSize := d } w2 file
      = (.error ("Unsupported file type: " ++ file.mimetype), []) := by
  have hval : validateFile config file
      = .error ("Unsupported file type: " ++ file.mimetype) := by
    simp [validateFile, resolveFileTypeConfig, hmime, hext]
  refine ⟨by simp [uploadFile, hval], ?_⟩
  intro d w2
  have hval2 : validateFile { config with defaultMaxSize := d } file
      = .error ("Unsupported file type: " ++ file.mimetype) := by
    simp [validateFile, resolveFileTypeConfig, hmime, hext]
  simp [uploadFile, hval2]

/-- C6 witness: a `text/plain` file named `notes.txt` against a
PDF-only policy with a large custom `defaultMaxSize`. -/
theorem uploadFile_unsupported_witness :
    c6config.fileTypes.lookup c6file.mimetype = none ∧
    c6config.fileTypes.lookup (jsExtension c6file.originalname) = none ∧
    uploadFile c6config c6world c6file
      = (.error "Unsupported file type: text/plain", []) ∧
    uploadFile { c6config with defaultMaxSize := 1 } c6world c6file
      = (.error "Unsupported file type: text/plain", []) :=
  ⟨rfl, rfl, (uploadFile_unsupported c6config c6world c6file rfl rfl).1,
    (uploadFile_unsupported c6config c6world c6file rfl rfl).2 1 c6world⟩

/-- Every event the scan stage emits is a scan of the file's buffer. -/
theorem scanForVirus_trace (config : UploadConfig) (w : ExternalWorld)
    (file : MulterFile) :
    ∀ ev ∈ (scanForVirus config w file).2, ev = TraceEvent.scanned file.buffer := by
  unfold scanForVirus
  cases config.virus with
  | none => simp
  | some v =>
    cases hvenb : v.enabled with
    | false => simp [hvenb]
    | true =>
      simp only [hvenb]
      cases v.config with
      | none => simp
      | some cc =>
        cases hsv : scanVerdict w file with
        | ok u => simp [hsv]
        | error e => simp [hsv]

/-- Every event the virus step of `uploadFile` emits is a scan of the
file's buffer. -/
theorem virusStage_trace (config : UploadConfig) (w : ExternalWorld)
    (file : MulterFile) :
    ∀ ev ∈ (virusStage config w file).2, ev = TraceEvent.scanned file.buffer := by
  unfold virusStage
  cases config.virus with
  | none => simp
  | some v =>
    cases hvenb : v.enabled with
    | false => simp [hvenb]
    | true =>
      simpa [hvenb] using scanForVirus_trace config w file

/-- Every write the storage stage issues carries the file's buffer. -/
theorem storeFile_trace_bytes (config : UploadConfig) (w : ExternalWorld)
    (file : MulterFile) (filename : String) :
    ∀ ev ∈ (storeFile config w file filename).2, ev.bytes = file.buffer := by
  unfold storeFile
  cases config.storage with
  | localStorage c =>
    simp [storeFileLocally, TraceEvent.bytes, StoreEvent.bytes]
  | s3 c =>
    simp [storeFileToS3, TraceEvent.bytes, StoreEvent.bytes]
  | azure c =>
    simp [storeFileToAzure, TraceEvent.bytes, StoreEvent.bytes]
  | gcp c =>
    simp [storeFileToGCP, TraceEvent.bytes, StoreEvent.bytes]

/-- A failed validation short-circuits the whole pipeline. -/
theorem uploadFile_of_val_error (config : UploadConfig) (w : ExternalWorld)
    (file : MulterFile) (e : String)
    (hval : validateFile config file = .error e) :
    uploadFile config w file = (.error e, []) := by
  unfold uploadFile
  rw [hval]

/-- After a passing validation and a resolved compression step, the
pipeline is the virus stage followed by the storage stage. -/
theorem uploadFile_of_stages (config : UploadConfig) (w : ExternalWorld)
    (file f2 : MulterFile) (u : Unit)
    (hval : validateFile config file = .ok u)
    (hstage : applyCompressionStage config w file = .ok f2) :
    uploadFile config w file =
      (match virusStage config w f2 with
       | (.error e, tr) => (.error e, tr)
       | (.ok _, tr) =>
         match storeFile config w f2 f2.originalname with
         | (res, tr2) => (res, tr ++ tr2)) := by
  unfold uploadFile
  rw [hval, hstage]

/-- C7: when the MIME type is not `image/…` or compression is
disabled/absent, the compression step passes the file through
unchanged, and every byte sequence reaching the scanner or a storage
backend during the whole upload is exactly the input content. -/
theorem compression_noop (config : UploadConfig) (w : ExternalWorld)
    (file : MulterFile)
    (h : jsStartsWith file.mimetype "image/" = false
         ∨ compressionDisabled config = true) :
    applyCompressionStage config w file = .ok file ∧
    ∀ ev ∈ (uploadFile config w file).2, ev.bytes = file.buffer := by
  have hstage : applyCompressionStage config w file = .ok file := by
    unfold applyCompressionStage
    rcases h with h1 | h2
    · simp [h1]
    · have hcomp : compressImage config w file = .ok file.buffer := by
        unfold compressImage compressionDisabled at *
        cases hc : config.compression with
        | none => rfl
        | some c =>
          rw [hc] at h2
          simp only [Bool.not_eq_true'] at h2
          simp [h2]
      by_cases hi : jsStartsWith file.mimetype "image/" = true
      · simp [hi, hcomp]
      · simp only [Bool.not_eq_true] at hi
        simp [hi]
  refine ⟨hstage, ?_⟩
  intro ev hev
  cases hval : validateFile config file with
  | error e =>
    rw [uploadFile_of_val_error config w file e hval] at hev
    simp at hev
  | ok u =>
    rw [uploadFile_of_stages config w file file u hval hstage] at hev
    rcases hvs : virusStage config w file with ⟨res, tr⟩
    rw [hvs] at hev
    cases res with
    | error e =>
      simp at hev
      have h2 := virusStage_trace config w file ev (by rw [hvs]; simpa using hev)
      simp [h2, TraceEvent.bytes]
    | ok u2 =>
      rcases hsf : storeFile config w file file.originalname with ⟨res2, tr2⟩
      rw [hsf] at hev
      simp at hev
      rcases hev with hev | hev
      · have h2 := virusStage_trace config w file ev (by rw [hvs]; simpa using hev)
        simp [h2, TraceEvent.bytes]
      · exact storeFile_trace_bytes config w file file.originalname ev
          (by rw [hsf]; simpa using hev)

/-- C7 witness: a PDF upload under a policy with compression enabled
and a codec that would replace any buffer with `[42]`: the stage is a
no-op and both the scan and the local write see the original bytes. -/
theorem compression_noop_witness :
    jsStartsWith c7file.mimetype "image/" = false ∧
    applyCompressionStage c7config c7world c7file = .ok c7file ∧
    ∀ ev ∈ (uploadFile c7config c7world c7file).2, ev.bytes = c7file.buffer :=
  ⟨by decide,
    (compression_noop c7config c7world c7file (.inl (by decide))).1,
    (compression_noop c7config c7world c7file (.inl (by decide))).2⟩

/-- The compression step never changes the original name. -/
theorem applyCompressionStage_originalname (config : UploadConfig)
    (w : ExternalWorld) (file f2 : MulterFile)
    (h : applyCompressionStage config w file = .ok f2) :
    f2.originalname = file.originalname := by
  unfold applyCompressionStage at h
  by_cases hi : jsStartsWith file.mimetype "image/" = true
  · rw [if_pos hi] at h
    cases hc : compressImage config w file with
    | ok buf => rw [hc] at h; injection h with h; rw [← h]
    | error e => rw [hc] at h; exact absurd h (by simp)
  · simp only [Bool.not_eq_true] at hi
    rw [hi] at h
    simp at h
    rw [← h]

/-- C8: every successful upload under an S3 policy returns the
virtual-hosted-style URL built from the bucket, the region and the
file's original name — whatever endpoint (custom or absent) the
storage block carries, and whatever the other stages did. -/
theorem uploadFile_s3_url (config : UploadConfig) (sc : S3StorageConfig)
    (w : ExternalWorld) (file : MulterFile) (url : String) (tr : List TraceEvent)
    (hs : config.storage = .s3 sc)
    (h : uploadFile config w file = (.ok url, tr)) :
    url = "https://" ++ sc.bucket ++ ".s3." ++ sc.region
      ++ ".amazonaws.com/" ++ file.originalname := by
  cases hval : validateFile config file with
  | error e =>
    rw [uploadFile_of_val_error config w file e hval] at h
    simp at h
  | ok u =>
    cases hstage : applyCompressionStage config w file with
    | error e =>
      unfold uploadFile at h
      rw [hval, hstage] at h
      simp at h
    | ok f2 =>
      rw [uploadFile_of_stages config w file f2 u hval hstage] at h
      rcases hvs : virusStage config w f2 with ⟨res, tr0⟩
      rw [hvs] at h
      cases res with
      | error e => simp at h
      | ok u2 =>
        rcases hsf : storeFile config w f2 f2.originalname with ⟨res2, tr2⟩
        rw [hsf] at h
        simp at h
        obtain ⟨hres, -⟩ := h
        unfold storeFile at hsf
        rw [hs] at hsf
        simp only [storeFileToS3, Prod.mk.injEq] at hsf
        obtain ⟨hsf1, -⟩ := hsf
        cases hbk : w.backend (StoreEvent.s3Put sc.bucket f2.originalname
            f2.buffer f2.mimetype sc.endpoint) with
        | ok u3 =>
          rw [hbk] at hsf1
          simp at hsf1
          rw [← hsf1] at hres
          injection hres with hurl
          rw [← hurl, applyCompressionStage_originalname config w file f2 hstage]
        | error e =>
          rw [hbk] at hsf1
          simp at hsf1
          rw [← hsf1] at hres
          exact absurd hres (by simp)

/-- C8 witness: a successful PDF upload to an S3 policy with a custom
MinIO endpoint still returns the AWS-shaped URL keyed by `a.pdf`. -/
theorem uploadFile_s3_url_witness :
    c8config.storage = .s3 c8sc ∧
    uploadFile c8config c8world c8file
      = (.ok "https://bkt.s3.us-east-1.amazonaws.com/a.pdf",
         [.stored (.s3Put "bkt" "a.pdf" [3, 4] "application/pdf"
            (some "https://minio.local:9000"))]) ∧
    "https://bkt.s3.us-east-1.amazonaws.com/a.pdf"
      = "https://" ++ c8sc.bucket ++ ".s3." ++ c8sc.region
        ++ ".amazonaws.com/" ++ c8file.originalname :=
  ⟨rfl, rfl,
    uploadFile_s3_url c8config c8sc c8world c8file
      "https://bkt.s3.us-east-1.amazonaws.com/a.pdf"
      [.stored (.s3Put "bkt" "a.pdf" [3, 4] "application/pdf"
        (some "https://minio.local:9000"))] rfl rfl⟩

/-- Builder setters preserve the shape invariant of the `virus`
block. -/
theorem applyOp_goodVirus (s : BuilderConfig) (op : BuilderOp)
    (h : goodVirus s.virus) : goodVirus (applyOp s op).virus := by
  cases op with
  | enableVirusScanning host port =>
    exact Or.inr ⟨{ host := host, port := port }, rfl⟩
  | useLocalStorage d => exact h
  | useS3Storage a k r b e => exact h
  | useAzureStorage cs c => exact h
  | useGCPStorage p k b => exact h
  | setFileType n c => exact h
  | setDefaultMaxSize d => exact h
  | enableCompression q mw mh => exact h
  | enableChunkedUploads sz => exact h

/-- Any builder call sequence leaves the `virus` block absent or fully
configured. -/
theorem runBuilder_goodVirus (ops : List BuilderOp) :
    goodVirus (runBuilder ops).virus := by
  suffices h : ∀ s : BuilderConfig, goodVirus s.virus →
      goodVirus (ops.foldl applyOp s).virus by
    exact h {} (Or.inl rfl)
  induction ops with
  | nil => intro s hs; exact hs
  | cons op rest ih =>
    intro s hs
    exact ih (applyOp s op) (applyOp_goodVirus s op hs)

/-- C9: on every builder-built config, an enabled `virus` block always
carries a `clamav` config, so the scan stage's missing-configuration
error (`ClamAV configuration is missing.`) is unreachable, whatever
scan engine and file the stage runs on. -/
theorem builder_clamav_configured (ops : List BuilderOp)
    (s2 : BuilderConfig) (cfg : UploadConfig)
    (hb : build (runBuilder ops) = .ok (s2, cfg)) :
    (∀ v, cfg.virus = some v → v.enabled = true ∧ v.config.isSome = true) ∧
    ∀ w file, (scanForVirus cfg w file).1
      ≠ .error "ClamAV configuration is missing." := by
  have hgood : goodVirus cfg.virus := by
    have h1 := runBuilder_goodVirus ops
    unfold build at hb
    cases hst : (runBuilder ops).storage with
    | none => rw [hst] at hb; exact absurd hb (by simp)
    | some st =>
      rw [hst] at hb
      cases hft : (runBuilder ops).fileTypes with
      | none => rw [hft] at hb; exact absurd hb (by simp)
      | some fts =>
        rw [hft] at hb
        simp only [Except.ok.injEq, Prod.mk.injEq] at hb
        obtain ⟨-, hcfg⟩ := hb
        have hvirus : cfg.virus = (runBuilder ops).virus := by
          rw [← hcfg]
          by_cases hd : jsTruthyNum (runBuilder ops).defaultMaxSize = true
          · simp [hd]
          · simp only [Bool.not_eq_true] at hd
            simp [hd]
        rw [hvirus]
        exact h1
  constructor
  · intro v hv
    rcases hgood with h0 | ⟨cc, h0⟩
    · rw [h0] at hv; exact absurd hv (by simp)
    · rw [h0] at hv
      injection hv with hv
      rw [← hv]
      exact ⟨rfl, rfl⟩
  · intro w file
    unfold scanForVirus
    rcases hgood with h0 | ⟨cc, h0⟩
    · rw [h0]; simp
    · rw [h0]
      simp only [Bool.not_true, Bool.false_eq_true, if_false]
      cases hsv : scanVerdict w file with
      | ok u => simp
      | error e =>
        simp only []
        intro hcontra
        exact wrap_ne_missing e (by injection hcontra)

/-- C9 witness: the built config from `c9ops` has a configured scanner
and never trips the missing-configuration error, even against an
unreachable scan engine. -/
theorem builder_clamav_configured_witness :
    build (runBuilder c9ops) = .ok (c9s2, c9cfg) ∧
    c9cfg.virus
      = some { enabled := true, config := some { host := "clamav.internal", port := 3310 } } ∧
    (scanForVirus c9cfg c9world c9file).1
      ≠ .error "ClamAV configuration is missing." :=
  ⟨rfl, rfl,
    (builder_clamav_configured c9ops c9s2 c9cfg rfl).2 c9world c9file⟩

/-- C10: `enableCompression(0, maxWidth, maxHeight)` yields the same
sharp pipeline and the same compression result as omitting `quality`
entirely: the falsy `0` skips the `jpeg({quality})` re-encode, leaving
only the resize (when bounds are set) and codec-default encoding. -/
theorem compressImage_quality_zero (config : UploadConfig) (w : ExternalWorld)
    (file : MulterFile) (maxWidth maxHeight : Option Int) :
    buildSharpPipeline
        { quality := some 0, maxWidth := maxWidth, maxHeight := maxHeight }
        file.buffer
      = buildSharpPipeline
          { quality := none, maxWidth := maxWidth, maxHeight := maxHeight }
          file.buffer ∧
    (buildSharpPipeline
        { quality := some 0, maxWidth := maxWidth, maxHeight := maxHeight }
        file.buffer).jpegQuality = none ∧
    compressImage
        { config with compression := enableCompressionValue (some 0) maxWidth maxHeight }
        w file
      = compressImage
          { config with compression := enableCompressionValue none maxWidth maxHeight }
          w file := by
  refine ⟨rfl, ?_, rfl⟩
  unfold buildSharpPipeline
  split <;> rfl

end SgUpload
